import Mathlib

/-!
Verification of the header-aggregation shim `Sources/clibsass4/libsass4.h`
of the swift-sass repository.

The artifact is a single C umbrella header: a block comment followed by
twelve `#include` directives re-exporting the public headers of the native
Sass engine (v4) under a vendor-qualified path.  We embed the file as its
literal list of lines, extract the include directives from it by the same
textual criterion a C preprocessor uses, and relate them to a structured
model: the twelve engine headers, the twelve roles of the spec, and the
inter-header dependency relation the spec states.

The engine's own headers are not part of this repository; where a property
depends on them (their mutual includes, their include guards) the relevant
behaviour is modelled from the spec, and each such definition is marked
`Modelled from the spec:` in its doc string.
-/

namespace LibSass4Shim

/-- The file `Sources/clibsass4/libsass4.h`, embedded verbatim as its list of
lines (27 lines: a 15-line block comment, then twelve include directives). -/
def sourceLines : List String :=
  [ "/* This is hairier than it should be because Swift PM does not let you"
  , "   prepend include search paths and so an existing libsass installation"
  , "   always wins over a private one."
  , ""
  , "   These headers have mutual includes in them.  The order here, then,"
  , "   is vital to be such that the mutual includes always go backwards to"
  , "   files that exist in libsass3:"
  , "     sass.h"
  , "     sass/base.h"
  , "     sass/values.h"
  , "     sass/version.h"
  , ""
  , "   Goes away entirely when there is a system libsass4 (or just \x27libsass\x27"
  , "   by then)"
  , "*/"
  , "#include <libsass4/include/sass/base.h>"
  , "#include <libsass4/include/sass/enums.h>"
  , "#include <libsass4/include/sass/fwdecl.h>"
  , "#include <libsass4/include/sass/version.h>"
  , "#include <libsass4/include/sass/error.h>"
  , "#include <libsass4/include/sass/traces.h>"
  , "#include <libsass4/include/sass/values.h>"
  , "#include <libsass4/include/sass/import.h>"
  , "#include <libsass4/include/sass/importer.h>"
  , "#include <libsass4/include/sass/function.h>"
  , "#include <libsass4/include/sass/compiler.h>"
  , "#include <libsass4/include/sass/variable.h>"
  ]

/-- Does string `p` occur as a prefix of string `s`?  (Character-list level,
so that proofs can evaluate it.) -/
def strStarts (s p : String) : Bool := p.data.isPrefixOf s.data

/-- A line of the file is an include directive when it starts with the token
`#include` followed by a space, exactly as the preprocessor recognises it. -/
def lineIsInclude (l : String) : Bool := strStarts l "#include "

/-- The include-directive lines of the file, in file order. -/
def includeLines : List String := sourceLines.filter lineIsInclude

/-- The path between the angle brackets of an include-directive line:
drop the 10 characters of `#include <` and the closing `>`. -/
def includedPath (l : String) : String := ⟨(l.data.drop 10).dropLast⟩

/-- The included paths of the file, in file order. -/
def includedPaths : List String := includeLines.map includedPath

/-- The twelve engine headers the umbrella re-exports, identified by the
basename of each header file. -/
inductive Header where
  | base
  | enums
  | fwdecl
  | version
  | error
  | traces
  | values
  | «import»
  | importer
  | function
  | compiler
  | «variable»
deriving DecidableEq, Repr, Inhabited

/-- The file name of an engine header (its basename with extension). -/
def Header.fileName : Header → String
  | .base => "base.h"
  | .enums => "enums.h"
  | .fwdecl => "fwdecl.h"
  | .version => "version.h"
  | .error => "error.h"
  | .traces => "traces.h"
  | .values => "values.h"
  | .«import» => "import.h"
  | .importer => "importer.h"
  | .function => "function.h"
  | .compiler => "compiler.h"
  | .«variable» => "variable.h"

/-- The vendor-qualified v4 path under which the umbrella references an
engine header. -/
def Header.v4Path (h : Header) : String := "libsass4/include/sass/" ++ h.fileName

/-- The bare path under which a system-installed v3 engine would expose a
header of the same name. -/
def Header.v3Path (h : Header) : String := "sass/" ++ h.fileName

/-- The order in which the umbrella header includes the twelve engine
headers (file order of the twelve directives). -/
def includeOrder : List Header :=
  [ .base, .enums, .fwdecl, .version, .error, .traces
  , .values, .«import», .importer, .function, .compiler, .«variable» ]

/-- The include directives extracted from the embedded file are exactly the
vendor-qualified paths of the twelve headers, in `includeOrder`. -/
theorem includedPaths_eq : includedPaths = includeOrder.map Header.v4Path := by decide

/-- The twelve groups of declarations of §4.1 of the spec — the roles the
engine headers play in the public surface. -/
inductive Role where
  | basePrimitives
  | enumeratedConstants
  | forwardDecls
  | versionMacros
  | errorObjects
  | traceObjects
  | valueModel
  | importDescriptors
  | importerCallbacks
  | customFunctions
  | compilerLifecycle
  | variableAccess
deriving DecidableEq, Repr, Inhabited

/-- Modelled from the spec: the numbered order of the twelve groups of §4.1
(base primitives first, …, variable access last). -/
def roleOrder : List Role :=
  [ .basePrimitives, .enumeratedConstants, .forwardDecls, .versionMacros
  , .errorObjects, .traceObjects, .valueModel, .importDescriptors
  , .importerCallbacks, .customFunctions, .compilerLifecycle, .variableAccess ]

/-- Modelled from the spec: which engine header carries each of the twelve
groups of declarations (§3 and §4.1 describe the groups; the header that
plays each role is named after it). -/
def roleHeader : Role → Header
  | .basePrimitives => .base
  | .enumeratedConstants => .enums
  | .forwardDecls => .fwdecl
  | .versionMacros => .version
  | .errorObjects => .error
  | .traceObjects => .traces
  | .valueModel => .values
  | .importDescriptors => .«import»
  | .importerCallbacks => .importer
  | .customFunctions => .function
  | .compilerLifecycle => .compiler
  | .«variableAccess» => .«variable»

/-- Modelled from the spec: the engine's documented v4 public surface is the
union of the twelve groups of §4.1 — every declaration belongs to exactly
one group. -/
def publicSurface : List Role := roleOrder

/-- Modelled from the spec: the inter-header dependency relation of the
Rationale of §4.1.  Lower-numbered groups are depended on by higher-numbered
groups; all (higher-numbered) headers reference base and the forward
declarations; value references base and enumerations; importer references
the import descriptors and value; the compiler lifecycle references error,
trace, the import descriptors, importer, function, and value.  `headerDeps h`
lists the headers whose declarations `h` mutually includes. -/
def headerDeps : Header → List Header
  | .base => []
  | .enums => [.base]
  | .fwdecl => [.base]
  | .version => [.base, .fwdecl]
  | .error => [.base, .fwdecl]
  | .traces => [.base, .fwdecl]
  | .values => [.base, .enums, .fwdecl]
  | .«import» => [.base, .fwdecl]
  | .importer => [.base, .fwdecl, .«import», .values]
  | .function => [.base, .fwdecl]
  | .compiler => [.base, .fwdecl, .error, .traces, .«import», .importer, .function, .values]
  | .«variable» => [.base, .fwdecl]

/-- A list of headers is a valid processing order when every dependency of
every header appears strictly earlier in the list: every mutual include goes
backwards to already-processed material. -/
def topoValid (l : List Header) : Bool :=
  go [] l
where
  /-- `seen` holds the headers already processed. -/
  go (seen : List Header) : List Header → Bool
    | [] => true
    | h :: t => (headerDeps h).all (fun d => seen.contains d) && go (h :: seen) t

/-- Swap the elements at positions `i` and `j` of a header list. -/
def swapAt (l : List Header) (i j : Nat) : List Header :=
  (l.set i (l.getD j .base)).set j (l.getD i .base)

/-- The include order with the headers at positions 3 and 4 (`version.h` and
`error.h`) exchanged; neither depends on the other. -/
def altOrder : List Header := swapAt includeOrder 3 4

/-- Does string `s` contain string `p` as a contiguous substring? -/
def strHasSub (s p : String) : Bool := s.data.tails.any (fun t => p.data.isPrefixOf t)

/-- The block comment of the file: its first fifteen lines. -/
def commentBlock : List String := sourceLines.take 15

/-- The lines of the file after the block comment. -/
def directiveBlock : List String := sourceLines.drop 15

/-- Does the file carry any guard directive of its own
(`#ifndef` / `#define` pair, `#pragma once`, or any other conditional)? -/
def hasOwnGuard : Bool :=
  sourceLines.any (fun l =>
    strStarts l "#ifndef" || strStarts l "#define" ||
    strStarts l "#pragma" || strStarts l "#if" || strStarts l "#endif")

/-- The header names that exist in libsass3 as well as libsass4, as listed in
the source file's own comment (lines 8–11). -/
def v3SharedNames : List String :=
  ["sass.h", "sass/base.h", "sass/values.h", "sass/version.h"]

/-! ## Preprocessing model

The umbrella header has no include guard of its own, so each inclusion of it
re-expands its twelve directives.  Whether that is idempotent depends on the
engine headers' guards, which live outside this repository; the expansion of
one engine header is therefore modelled from the spec. -/

/-- State of a preprocessing run: the guard macros defined so far (keyed by
the header that defines them) and the declaration groups emitted so far
(each engine header contributes its own group, identified with the header). -/
structure PPState where
  defined : List Header
  emitted : List Header
deriving DecidableEq, Repr

/-- The state before anything is processed. -/
def initState : PPState := ⟨[], []⟩

/-- Modelled from the spec: expanding one engine header (the engine's header
bodies are not part of this repository).  A guarded header defines its guard
on first expansion and contributes nothing when its guard is already defined;
an unguarded header re-emits its declaration group on every expansion.
`guarded` records which engine headers carry an internal include guard. -/
def expandHeader (guarded : Header → Bool) (st : PPState) (h : Header) : PPState :=
  if guarded h then
    if st.defined.contains h then st
    else { defined := h :: st.defined, emitted := st.emitted ++ [h] }
  else { st with emitted := st.emitted ++ [h] }

/-- One inclusion of the umbrella header: since the umbrella has no guard of
its own, it always expands all twelve directives in `includeOrder`. -/
def includeUmbrella (guarded : Header → Bool) (st : PPState) : PPState :=
  includeOrder.foldl (expandHeader guarded) st

/-- Expanding a header never removes emitted declarations. -/
theorem expand_emitted_le (g : Header → Bool) (st : PPState) (h : Header) :
    st.emitted.length ≤ (expandHeader g st h).emitted.length := by
  unfold expandHeader
  split
  · split
    · exact Nat.le_refl _
    · simp
  · simp

/-- Expanding an unguarded header emits its declaration group again. -/
theorem expand_emitted_unguarded (g : Header → Bool) (st : PPState) (h : Header)
    (hg : g h = false) :
    (expandHeader g st h).emitted.length = st.emitted.length + 1 := by
  unfold expandHeader
  rw [hg]
  simp

/-- Processing a list of headers never removes emitted declarations. -/
theorem foldl_emitted_le (g : Header → Bool) :
    ∀ (l : List Header) (st : PPState),
      st.emitted.length ≤ (l.foldl (expandHeader g) st).emitted.length := by
  intro l
  induction l with
  | nil => intro st; exact Nat.le_refl _
  | cons a t ih =>
      intro st
      exact Nat.le_trans (expand_emitted_le g st a) (ih (expandHeader g st a))

/-- Processing a list that contains an unguarded header strictly grows the
emitted declarations. -/
theorem foldl_emitted_lt (g : Header → Bool) :
    ∀ (l : List Header) (st : PPState) (h : Header),
      h ∈ l → g h = false →
      st.emitted.length < (l.foldl (expandHeader g) st).emitted.length := by
  intro l
  induction l with
  | nil => intro st h hmem _; cases hmem
  | cons a t ih =>
      intro st h hmem hg
      rcases List.mem_cons.mp hmem with rfl | hmem'
      · have h1 := expand_emitted_unguarded g st h hg
        have h2 := foldl_emitted_le g t (expandHeader g st h)
        have h3 : (h :: t).foldl (expandHeader g) st
            = t.foldl (expandHeader g) (expandHeader g st h) := rfl
        rw [h3]
        omega
      · have h1 := expand_emitted_le g st a
        have h2 := ih (expandHeader g st a) h hmem' hg
        have h3 : (a :: t).foldl (expandHeader g) st
            = t.foldl (expandHeader g) (expandHeader g st a) := rfl
        rw [h3]
        omega

/-- Every engine header occurs in the umbrella's include list. -/
theorem mem_includeOrder (h : Header) : h ∈ includeOrder := by
  cases h <;> decide

/-- If some engine header lacks a guard, a second inclusion of the umbrella
changes the state: it re-emits that header's declaration group. -/
theorem umbrella_not_idem (g : Header → Bool) (h : Header) (hg : g h = false) :
    includeUmbrella g (includeUmbrella g initState) ≠ includeUmbrella g initState := by
  intro heq
  have hlt := foldl_emitted_lt g includeOrder (includeUmbrella g initState) h
    (mem_includeOrder h) hg
  have hfold : includeUmbrella g (includeUmbrella g initState)
      = includeOrder.foldl (expandHeader g) (includeUmbrella g initState) := rfl
  rw [← hfold, heq] at hlt
  exact Nat.lt_irrefl _ hlt

/-- Does string `p` occur as a suffix of string `s`? -/
def strEnds (s p : String) : Bool := p.data.isSuffixOf s.data

/-! ## The claims -/

/-- C1: the umbrella header lists exactly twelve include directives, and
their order matches, one-to-one, the twelve-group order of §4.1 — the header
carrying each group sits at that group's position, base primitives first and
variable access last, with no header repeated. -/
theorem claim1_twelve_includes_in_group_order :
    includedPaths.length = 12 ∧
    includeOrder = roleOrder.map roleHeader ∧
    includedPaths = (roleOrder.map roleHeader).map Header.v4Path ∧
    (roleOrder.map roleHeader).Nodup := by decide

/-- C2: every include directive of the file references its header through the
v4-unique vendor-root path `libsass4/include/sass/<name>.h`, and no directive
uses a bare `sass/<name>.h` path that a system-installed v3 could shadow. -/
theorem claim2_vendor_qualified_paths :
    includeLines.length = 12 ∧
    includeLines.all
      (fun l => strStarts l "#include <libsass4/include/sass/" && strEnds l ".h>") = true ∧
    sourceLines.all
      (fun l => !(strStarts l "#include <sass/") && !(strStarts l "#include \x22sass/")) = true := by
  decide

/-- C3: for every header name shared between engine v3 and engine v4
(`sass.h`, `sass/base.h`, `sass/values.h`, `sass/version.h`, per the file's
own comment), whenever a header of the list mutually includes that name, the
v4 copy of the name appears strictly earlier in the umbrella's list, so the
mutual include resolves backwards to already-processed v4 material. -/
theorem claim3_v3_shared_resolve_backwards :
    ∀ j, j < includeOrder.length →
      ∀ d, d ∈ headerDeps (includeOrder.getD j .base) →
        d.v3Path ∈ v3SharedNames →
        includeOrder.indexOf d < j := by decide

/-- Witness for C3 at the compiler-lifecycle header (position 10), which
mutually includes `values.h`, a name shared with v3: the v4 `values.h` sits
at position 6, strictly earlier. -/
theorem claim3_witness : includeOrder.indexOf Header.values < 10 :=
  claim3_v3_shared_resolve_backwards 10 (by decide) Header.values (by decide) (by decide)

/-- C4: for each of the twelve groups of the documented v4 public surface
there is exactly one corresponding header in the umbrella's list, and every
header of the list carries one of the twelve groups — nothing of the surface
lies outside the twelve included headers. -/
theorem claim4_surface_coverage :
    (∀ r, r ∈ publicSurface → includeOrder.count (roleHeader r) = 1) ∧
    (∀ h, h ∈ includeOrder → ∃ r, r ∈ publicSurface ∧ roleHeader r = h) := by decide

/-- Witness for C4 at the compiler-lifecycle group and the compiler header. -/
theorem claim4_witness :
    includeOrder.count (roleHeader Role.compilerLifecycle) = 1 ∧
    (∃ r, r ∈ publicSurface ∧ roleHeader r = Header.compiler) :=
  ⟨claim4_surface_coverage.1 Role.compilerLifecycle (by decide),
   claim4_surface_coverage.2 Header.compiler (by decide)⟩

/-- C5: including the umbrella header twice in one translation unit is
idempotent — the second inclusion defines no guard and emits no declaration
group beyond the first — and the guarantee comes from the engine headers'
own include guards (all guarded in the model), not from a guard of the
umbrella itself, which has none. -/
theorem claim5_double_inclusion_idempotent :
    hasOwnGuard = false ∧
    includeUmbrella (fun _ => true) (includeUmbrella (fun _ => true) initState)
      = includeUmbrella (fun _ => true) initState := by decide

/-- C6: the listed order resolves every dependency backwards, and swapping
any two positions `i < j` where the header at `j` depends on the header at
`i` yields an order in which some needed header is no longer processed
first — a deterministic build failure. -/
theorem claim6_order_sensitivity :
    topoValid includeOrder = true ∧
    (∀ i, i < includeOrder.length → ∀ j, j < includeOrder.length → i < j →
      (headerDeps (includeOrder.getD j .base)).contains (includeOrder.getD i .base) = true →
      topoValid (swapAt includeOrder i j) = false) := by decide

/-- Witness for C6 at positions 2 (`fwdecl.h`) and 10 (`compiler.h`), the
spec's own negative scenario: moving the compiler lifecycle header ahead of
the forward declarations fails. -/
theorem claim6_witness : topoValid (swapAt includeOrder 2 10) = false :=
  claim6_order_sensitivity.2 2 (by decide) 10 (by decide) (by decide) (by decide)

/-- C7: the umbrella defines and declares nothing of its own: the file is
exactly one block comment (lines 1–15, opened on the first line, closed only
on the fifteenth) followed by the twelve engine include directives, so its
entire effect is those includes and it contributes no macro, declaration, or
runtime code. -/
theorem claim7_no_own_declarations :
    sourceLines = commentBlock ++ directiveBlock ∧
    sourceLines.length = 27 ∧
    strStarts (commentBlock.getD 0 "") "/*" = true ∧
    commentBlock.dropLast.all (fun l => !(strHasSub l "*/")) = true ∧
    commentBlock.getD 14 "" = "*/" ∧
    directiveBlock.length = 12 ∧
    directiveBlock.all
      (fun l => lineIsInclude l && strStarts l "#include <libsass4/include/sass/") = true := by
  decide

/-- C8 counterexample: the listed order is not the unique permutation that
keeps every stated dependency going backwards — exchanging `version.h` and
`error.h` (which do not depend on each other) gives a different permutation
of the twelve headers that is also dependency-valid. -/
theorem claim8_counterexample :
    topoValid altOrder = true ∧ altOrder ≠ includeOrder ∧ altOrder.Perm includeOrder := by
  decide

/-- C8 (amended): the listed order is a topological ordering of the twelve
distinct headers with respect to the stated dependency relation — every
mutual include goes backwards — but it is not the unique such permutation. -/
theorem claim8_order_topological_not_unique :
    topoValid includeOrder = true ∧
    includeOrder.Nodup ∧
    includeOrder.length = 12 ∧
    ∃ l, l ≠ includeOrder ∧ l.Perm includeOrder ∧ topoValid l = true := by
  refine ⟨by decide, by decide, by decide, altOrder, by decide, by decide, by decide⟩

/-- C9: the umbrella contains no include guard of its own (no `#ifndef` /
`#define` pair, no `#pragma once`), a second inclusion re-expands all twelve
directives verbatim, and idempotence of double inclusion holds if and only
if every one of the twelve engine headers is internally guarded. -/
theorem claim9_no_own_guard_iff_engine_guards :
    hasOwnGuard = false ∧
    (∀ (g : Header → Bool) (st : PPState),
      includeUmbrella g (includeUmbrella g st)
        = (includeOrder ++ includeOrder).foldl (expandHeader g) st) ∧
    (∀ g : Header → Bool,
      includeUmbrella g (includeUmbrella g initState) = includeUmbrella g initState ↔
        ∀ h, g h = true) := by
  refine ⟨by decide, ?_, ?_⟩
  · intro g st
    rw [List.foldl_append]
    rfl
  · intro g
    constructor
    · intro hid h
      by_contra hfalse
      have hg : g h = false := by
        cases hgh : g h
        · rfl
        · exact absurd hgh hfalse
      exact umbrella_not_idem g h hg hid
    · intro hall
      have hfun : g = fun _ => true := funext (fun h => hall h)
      subst hfun
      decide

/-- Witness for C9 with every engine header guarded: double inclusion equals
re-expansion of the doubled directive list, and the idempotence equivalence
instantiates to a truth. -/
theorem claim9_witness :
    includeUmbrella (fun _ => true) (includeUmbrella (fun _ => true) initState)
      = (includeOrder ++ includeOrder).foldl (expandHeader (fun _ => true)) initState ∧
    (includeUmbrella (fun _ => true) (includeUmbrella (fun _ => true) initState)
      = includeUmbrella (fun _ => true) initState ↔
        ∀ h : Header, (fun _ => true : Header → Bool) h = true) :=
  ⟨claim9_no_own_guard_iff_engine_guards.2.1 _ _,
   claim9_no_own_guard_iff_engine_guards.2.2 _⟩

/-- C10: all twelve include directives use the angle-bracket form with the
single identical literal prefix `libsass4/include/sass/` (none uses the
quoted, shim-directory-relative form), and the twelve included paths are
pairwise distinct, so every header is pulled in exactly once. -/
theorem claim10_angle_bracket_distinct :
    includeLines.length = 12 ∧
    includeLines.all
      (fun l => strStarts l "#include <libsass4/include/sass/" && strEnds l ">") = true ∧
    includedPaths.Nodup ∧
    sourceLines.all (fun l => !(strStarts l "#include \x22")) = true := by decide

end LibSass4Shim
